import Mathlib

set_option linter.unusedVariables false

/-!
Verification of src/libs/recipes/llamacpp_android/opencl_stub.c.

The file defines 35 C functions, each of the shape `void clX() {}`:
an empty parameter list (so any arguments may be passed and are ignored)
and an empty body.  The file declares no globals and no statics, so the
only state a call could touch is memory outside the file, reached through
pointer arguments or the linker; we model it as a map from addresses to
machine words.  Each C function becomes a Lean function by explicit state
passing: it takes the argument words and the memory and returns the
(unit) result together with the memory after the call.
-/

/-- A machine word passed as an argument to a call.  The stub functions
are declared with an empty parameter list, so a caller may pass any
number of arguments of any word-sized type; the bodies ignore them. -/
abbrev Arg : Type := Nat

/-- The memory a function in the file could reach: a map from addresses
to machine words.  The file declares no globals and no statics, so every
datum observable across a call lives here. -/
abbrev Mem : Type := Nat → Nat

/-- Write value `v` at address `a`, leaving every other address alone. -/
def Mem.write (m : Mem) (a v : Nat) : Mem := fun x => if x = a then v else m x

/-- Embedding of `void clBuildProgram() {}` (opencl_stub.c line 6). -/
def clBuildProgram (args : List Arg) (s : Mem) : Unit × Mem := ((), s)

/-- Embedding of `void clCreateBuffer() {}` (line 7). -/
def clCreateBuffer (args : List Arg) (s : Mem) : Unit × Mem := ((), s)

/-- Embedding of `void clCreateCommandQueue() {}` (line 8). -/
def clCreateCommandQueue (args : List Arg) (s : Mem) : Unit × Mem := ((), s)

/-- Embedding of `void clCreateContext() {}` (line 9). -/
def clCreateContext (args : List Arg) (s : Mem) : Unit × Mem := ((), s)

/-- Embedding of `void clCreateImage() {}` (line 10). -/
def clCreateImage (args : List Arg) (s : Mem) : Unit × Mem := ((), s)

/-- Embedding of `void clCreateKernel() {}` (line 11). -/
def clCreateKernel (args : List Arg) (s : Mem) : Unit × Mem := ((), s)

/-- Embedding of `void clCreateProgramWithSource() {}` (line 12). -/
def clCreateProgramWithSource (args : List Arg) (s : Mem) : Unit × Mem := ((), s)

/-- Embedding of `void clCreateSubBuffer() {}` (line 13). -/
def clCreateSubBuffer (args : List Arg) (s : Mem) : Unit × Mem := ((), s)

/-- Embedding of `void clEnqueueBarrierWithWaitList() {}` (line 14). -/
def clEnqueueBarrierWithWaitList (args : List Arg) (s : Mem) : Unit × Mem := ((), s)

/-- Embedding of `void clEnqueueCopyBuffer() {}` (line 15). -/
def clEnqueueCopyBuffer (args : List Arg) (s : Mem) : Unit × Mem := ((), s)

/-- Embedding of `void clEnqueueFillBuffer() {}` (line 16). -/
def clEnqueueFillBuffer (args : List Arg) (s : Mem) : Unit × Mem := ((), s)

/-- Embedding of `void clEnqueueMarkerWithWaitList() {}` (line 17). -/
def clEnqueueMarkerWithWaitList (args : List Arg) (s : Mem) : Unit × Mem := ((), s)

/-- Embedding of `void clEnqueueNDRangeKernel() {}` (line 18). -/
def clEnqueueNDRangeKernel (args : List Arg) (s : Mem) : Unit × Mem := ((), s)

/-- Embedding of `void clEnqueueReadBuffer() {}` (line 19). -/
def clEnqueueReadBuffer (args : List Arg) (s : Mem) : Unit × Mem := ((), s)

/-- Embedding of `void clEnqueueWriteBuffer() {}` (line 20). -/
def clEnqueueWriteBuffer (args : List Arg) (s : Mem) : Unit × Mem := ((), s)

/-- Embedding of `void clFinish() {}` (line 21). -/
def clFinish (args : List Arg) (s : Mem) : Unit × Mem := ((), s)

/-- Embedding of `void clFlush() {}` (line 22). -/
def clFlush (args : List Arg) (s : Mem) : Unit × Mem := ((), s)

/-- Embedding of `void clGetDeviceIDs() {}` (line 23). -/
def clGetDeviceIDs (args : List Arg) (s : Mem) : Unit × Mem := ((), s)

/-- Embedding of `void clGetDeviceInfo() {}` (line 24). -/
def clGetDeviceInfo (args : List Arg) (s : Mem) : Unit × Mem := ((), s)

/-- Embedding of `void clGetEventProfilingInfo() {}` (line 25). -/
def clGetEventProfilingInfo (args : List Arg) (s : Mem) : Unit × Mem := ((), s)

/-- Embedding of `void clGetKernelInfo() {}` (line 26). -/
def clGetKernelInfo (args : List Arg) (s : Mem) : Unit × Mem := ((), s)

/-- Embedding of `void clGetKernelSubGroupInfo() {}` (line 27). -/
def clGetKernelSubGroupInfo (args : List Arg) (s : Mem) : Unit × Mem := ((), s)

/-- Embedding of `void clGetKernelWorkGroupInfo() {}` (line 28). -/
def clGetKernelWorkGroupInfo (args : List Arg) (s : Mem) : Unit × Mem := ((), s)

/-- Embedding of `void clGetPlatformIDs() {}` (line 29). -/
def clGetPlatformIDs (args : List Arg) (s : Mem) : Unit × Mem := ((), s)

/-- Embedding of `void clGetPlatformInfo() {}` (line 30). -/
def clGetPlatformInfo (args : List Arg) (s : Mem) : Unit × Mem := ((), s)

/-- Embedding of `void clGetProgramBuildInfo() {}` (line 31). -/
def clGetProgramBuildInfo (args : List Arg) (s : Mem) : Unit × Mem := ((), s)

/-- Embedding of `void clReleaseCommandQueue() {}` (line 32). -/
def clReleaseCommandQueue (args : List Arg) (s : Mem) : Unit × Mem := ((), s)

/-- Embedding of `void clReleaseContext() {}` (line 33). -/
def clReleaseContext (args : List Arg) (s : Mem) : Unit × Mem := ((), s)

/-- Embedding of `void clReleaseEvent() {}` (line 34). -/
def clReleaseEvent (args : List Arg) (s : Mem) : Unit × Mem := ((), s)

/-- Embedding of `void clReleaseKernel() {}` (line 35). -/
def clReleaseKernel (args : List Arg) (s : Mem) : Unit × Mem := ((), s)

/-- Embedding of `void clReleaseMemObject() {}` (line 36). -/
def clReleaseMemObject (args : List Arg) (s : Mem) : Unit × Mem := ((), s)

/-- Embedding of `void clReleaseProgram() {}` (line 37). -/
def clReleaseProgram (args : List Arg) (s : Mem) : Unit × Mem := ((), s)

/-- Embedding of `void clSetKernelArg() {}` (line 38). -/
def clSetKernelArg (args : List Arg) (s : Mem) : Unit × Mem := ((), s)

/-- Embedding of `void clWaitForEvents() {}` (line 39). -/
def clWaitForEvents (args : List Arg) (s : Mem) : Unit × Mem := ((), s)

/-- Embedding of `void clGetExtensionFunctionAddressForPlatform() {}` (line 40). -/
def clGetExtensionFunctionAddressForPlatform (args : List Arg) (s : Mem) : Unit × Mem := ((), s)

/-- The names of the functions defined in opencl_stub.c, one constructor
per definition, in source order (lines 6 to 40). -/
inductive StubName : Type where
  | clBuildProgram
  | clCreateBuffer
  | clCreateCommandQueue
  | clCreateContext
  | clCreateImage
  | clCreateKernel
  | clCreateProgramWithSource
  | clCreateSubBuffer
  | clEnqueueBarrierWithWaitList
  | clEnqueueCopyBuffer
  | clEnqueueFillBuffer
  | clEnqueueMarkerWithWaitList
  | clEnqueueNDRangeKernel
  | clEnqueueReadBuffer
  | clEnqueueWriteBuffer
  | clFinish
  | clFlush
  | clGetDeviceIDs
  | clGetDeviceInfo
  | clGetEventProfilingInfo
  | clGetKernelInfo
  | clGetKernelSubGroupInfo
  | clGetKernelWorkGroupInfo
  | clGetPlatformIDs
  | clGetPlatformInfo
  | clGetProgramBuildInfo
  | clReleaseCommandQueue
  | clReleaseContext
  | clReleaseEvent
  | clReleaseKernel
  | clReleaseMemObject
  | clReleaseProgram
  | clSetKernelArg
  | clWaitForEvents
  | clGetExtensionFunctionAddressForPlatform
deriving DecidableEq

/-- All functions defined in the file, in source order. -/
def allStubs : List StubName :=
  [ .clBuildProgram, .clCreateBuffer, .clCreateCommandQueue, .clCreateContext,
    .clCreateImage, .clCreateKernel, .clCreateProgramWithSource, .clCreateSubBuffer,
    .clEnqueueBarrierWithWaitList, .clEnqueueCopyBuffer, .clEnqueueFillBuffer,
    .clEnqueueMarkerWithWaitList, .clEnqueueNDRangeKernel, .clEnqueueReadBuffer,
    .clEnqueueWriteBuffer, .clFinish, .clFlush, .clGetDeviceIDs, .clGetDeviceInfo,
    .clGetEventProfilingInfo, .clGetKernelInfo, .clGetKernelSubGroupInfo,
    .clGetKernelWorkGroupInfo, .clGetPlatformIDs, .clGetPlatformInfo,
    .clGetProgramBuildInfo, .clReleaseCommandQueue, .clReleaseContext,
    .clReleaseEvent, .clReleaseKernel, .clReleaseMemObject, .clReleaseProgram,
    .clSetKernelArg, .clWaitForEvents, .clGetExtensionFunctionAddressForPlatform ]

/-- The case-sensitive linker symbol under which each function is defined. -/
def symbolOf : StubName → String
  | .clBuildProgram => "clBuildProgram"
  | .clCreateBuffer => "clCreateBuffer"
  | .clCreateCommandQueue => "clCreateCommandQueue"
  | .clCreateContext => "clCreateContext"
  | .clCreateImage => "clCreateImage"
  | .clCreateKernel => "clCreateKernel"
  | .clCreateProgramWithSource => "clCreateProgramWithSource"
  | .clCreateSubBuffer => "clCreateSubBuffer"
  | .clEnqueueBarrierWithWaitList => "clEnqueueBarrierWithWaitList"
  | .clEnqueueCopyBuffer => "clEnqueueCopyBuffer"
  | .clEnqueueFillBuffer => "clEnqueueFillBuffer"
  | .clEnqueueMarkerWithWaitList => "clEnqueueMarkerWithWaitList"
  | .clEnqueueNDRangeKernel => "clEnqueueNDRangeKernel"
  | .clEnqueueReadBuffer => "clEnqueueReadBuffer"
  | .clEnqueueWriteBuffer => "clEnqueueWriteBuffer"
  | .clFinish => "clFinish"
  | .clFlush => "clFlush"
  | .clGetDeviceIDs => "clGetDeviceIDs"
  | .clGetDeviceInfo => "clGetDeviceInfo"
  | .clGetEventProfilingInfo => "clGetEventProfilingInfo"
  | .clGetKernelInfo => "clGetKernelInfo"
  | .clGetKernelSubGroupInfo => "clGetKernelSubGroupInfo"
  | .clGetKernelWorkGroupInfo => "clGetKernelWorkGroupInfo"
  | .clGetPlatformIDs => "clGetPlatformIDs"
  | .clGetPlatformInfo => "clGetPlatformInfo"
  | .clGetProgramBuildInfo => "clGetProgramBuildInfo"
  | .clReleaseCommandQueue => "clReleaseCommandQueue"
  | .clReleaseContext => "clReleaseContext"
  | .clReleaseEvent => "clReleaseEvent"
  | .clReleaseKernel => "clReleaseKernel"
  | .clReleaseMemObject => "clReleaseMemObject"
  | .clReleaseProgram => "clReleaseProgram"
  | .clSetKernelArg => "clSetKernelArg"
  | .clWaitForEvents => "clWaitForEvents"
  | .clGetExtensionFunctionAddressForPlatform => "clGetExtensionFunctionAddressForPlatform"

/-- The symbols the file defines, in source order. -/
def definedSymbols : List String := allStubs.map symbolOf

/-- Calling the function named `f` with argument words `args` in memory
`s`: dispatch to the embedding of the corresponding C definition. -/
def runStub (f : StubName) (args : List Arg) (s : Mem) : Unit × Mem :=
  match f with
  | .clBuildProgram => clBuildProgram args s
  | .clCreateBuffer => clCreateBuffer args s
  | .clCreateCommandQueue => clCreateCommandQueue args s
  | .clCreateContext => clCreateContext args s
  | .clCreateImage => clCreateImage args s
  | .clCreateKernel => clCreateKernel args s
  | .clCreateProgramWithSource => clCreateProgramWithSource args s
  | .clCreateSubBuffer => clCreateSubBuffer args s
  | .clEnqueueBarrierWithWaitList => clEnqueueBarrierWithWaitList args s
  | .clEnqueueCopyBuffer => clEnqueueCopyBuffer args s
  | .clEnqueueFillBuffer => clEnqueueFillBuffer args s
  | .clEnqueueMarkerWithWaitList => clEnqueueMarkerWithWaitList args s
  | .clEnqueueNDRangeKernel => clEnqueueNDRangeKernel args s
  | .clEnqueueReadBuffer => clEnqueueReadBuffer args s
  | .clEnqueueWriteBuffer => clEnqueueWriteBuffer args s
  | .clFinish => clFinish args s
  | .clFlush => clFlush args s
  | .clGetDeviceIDs => clGetDeviceIDs args s
  | .clGetDeviceInfo => clGetDeviceInfo args s
  | .clGetEventProfilingInfo => clGetEventProfilingInfo args s
  | .clGetKernelInfo => clGetKernelInfo args s
  | .clGetKernelSubGroupInfo => clGetKernelSubGroupInfo args s
  | .clGetKernelWorkGroupInfo => clGetKernelWorkGroupInfo args s
  | .clGetPlatformIDs => clGetPlatformIDs args s
  | .clGetPlatformInfo => clGetPlatformInfo args s
  | .clGetProgramBuildInfo => clGetProgramBuildInfo args s
  | .clReleaseCommandQueue => clReleaseCommandQueue args s
  | .clReleaseContext => clReleaseContext args s
  | .clReleaseEvent => clReleaseEvent args s
  | .clReleaseKernel => clReleaseKernel args s
  | .clReleaseMemObject => clReleaseMemObject args s
  | .clReleaseProgram => clReleaseProgram args s
  | .clSetKernelArg => clSetKernelArg args s
  | .clWaitForEvents => clWaitForEvents args s
  | .clGetExtensionFunctionAddressForPlatform => clGetExtensionFunctionAddressForPlatform args s

/-- Statements of the C fragment relevant to the file.  The language keeps
a store and a loop so that emptiness of the stub bodies, their freedom
from effects and their termination are facts about the bodies rather than
artifacts of the language. -/
inductive Stmt : Type where
  | store (addr val : Nat) : Stmt
  | whileNZ (addr : Nat) (body : List Stmt) : Stmt

/-- Run a statement list under a fuel bound; `none` means the fuel was
exhausted before the list finished. -/
def execStmts (fuel : Nat) (stmts : List Stmt) (s : Mem) : Option Mem :=
  match stmts with
  | [] => some s
  | stmt :: rest =>
    match fuel with
    | 0 => none
    | fuel' + 1 =>
      match stmt with
      | .store a v => execStmts fuel' rest (s.write a v)
      | .whileNZ a body =>
        if s a = 0 then execStmts fuel' rest s
        else execStmts fuel' (body ++ .whileNZ a body :: rest) s

/-- The body of each function defined in the file.  Every definition in
opencl_stub.c (lines 6 to 40) has the empty body. -/
def stubBody : StubName → List Stmt := fun _ => []

/-- Running a stub under a fuel bound, with the result placed in Except:
the error case is reached only when the body does not finish within the
given fuel. -/
def runStubExcept (f : StubName) (args : List Arg) (fuel : Nat) (s : Mem) :
    Except String (Unit × Mem) :=
  match execStmts fuel (stubBody f) s with
  | some m => Except.ok ((), m)
  | none => Except.error "call did not finish"

/-- Every stub call returns the unit result and the unchanged memory; all
claim theorems below reduce to this shape. -/
theorem runStub_eq (f : StubName) (args : List Arg) (s : Mem) :
    runStub f args s = ((), s) := by
  cases f <;> rfl

/-- C1: every stub function performs no observable effect: for every stub
name, argument list and memory, the memory after the call equals the
memory before it, so no field, global or argument-reachable datum is
modified. -/
theorem stub_preserves_state (f : StubName) (args : List Arg) (s : Mem) :
    (runStub f args s).2 = s := by
  rw [runStub_eq]

/-- C2: every stub call unconditionally succeeds: in the Except-valued
embedding the result is always the success case, for every fuel bound,
because the empty body finishes at once. -/
theorem stub_never_fails (f : StubName) (args : List Arg) (fuel : Nat) (s : Mem) :
    runStubExcept f args fuel s = Except.ok ((), s) := by
  simp [runStubExcept, stubBody, execStmts]

/-- C3: every stub function terminates on every call: its body is the
empty statement list, so it contains no loop, recursion or branching, and
execution returns (with the memory intact) under every fuel bound,
including zero. -/
theorem stub_terminates (f : StubName) :
    stubBody f = [] ∧ ∀ fuel : Nat, ∀ s : Mem, execStmts fuel (stubBody f) s = some s :=
  ⟨rfl, fun _ _ => by simp [stubBody, execStmts]⟩

/-- C4: the symbols the file defines are exactly the 35 case-sensitive
OpenCL API names, in source order, without duplicates, and each of them
is the symbol of a callable stub definition. -/
theorem defined_symbols_exact :
    definedSymbols =
      [ "clBuildProgram", "clCreateBuffer", "clCreateCommandQueue", "clCreateContext",
        "clCreateImage", "clCreateKernel", "clCreateProgramWithSource", "clCreateSubBuffer",
        "clEnqueueBarrierWithWaitList", "clEnqueueCopyBuffer", "clEnqueueFillBuffer",
        "clEnqueueMarkerWithWaitList", "clEnqueueNDRangeKernel", "clEnqueueReadBuffer",
        "clEnqueueWriteBuffer", "clFinish", "clFlush", "clGetDeviceIDs", "clGetDeviceInfo",
        "clGetEventProfilingInfo", "clGetKernelInfo", "clGetKernelSubGroupInfo",
        "clGetKernelWorkGroupInfo", "clGetPlatformIDs", "clGetPlatformInfo",
        "clGetProgramBuildInfo", "clReleaseCommandQueue", "clReleaseContext",
        "clReleaseEvent", "clReleaseKernel", "clReleaseMemObject", "clReleaseProgram",
        "clSetKernelArg", "clWaitForEvents", "clGetExtensionFunctionAddressForPlatform" ] ∧
    definedSymbols.length = 35 ∧
    definedSymbols.Nodup ∧
    definedSymbols = allStubs.map symbolOf := by
  refine ⟨rfl, rfl, ?_, rfl⟩
  decide

/-- C5: the file introduces no mutable state, so every predicate over
program state is an invariant of every stub call: if P holds of the
memory before the call, it holds of the memory after it. -/
theorem stub_preserves_invariant (P : Mem → Prop) (f : StubName) (args : List Arg)
    (s : Mem) (h : P s) : P (runStub f args s).2 := by
  rw [runStub_eq]
  exact h

/-- Witness for C5 at the predicate taking the word at address 0 to be 0,
the stub clFinish, the empty argument list, and the all-zero memory. -/
theorem stub_preserves_invariant_witness :
    (runStub StubName.clFinish [] (fun _ => 0)).2 0 = 0 :=
  stub_preserves_invariant (fun m => m 0 = 0) StubName.clFinish [] (fun _ => 0) rfl

/-- C6: every stub function is idempotent: calling it again from the
state its first call produced yields the same result and state as the
first call. -/
theorem stub_idempotent (f : StubName) (args : List Arg) (s : Mem) :
    runStub f args (runStub f args s).2 = runStub f args s := by
  simp [runStub_eq]

/-- C7: any two stub calls commute: running f then g from a memory yields
the same final memory as running g then f, so no ordering between calls
is observable. -/
theorem stub_calls_commute (f g : StubName) (a1 a2 : List Arg) (s : Mem) :
    (runStub g a2 (runStub f a1 s).2).2 = (runStub f a1 (runStub g a2 s).2).2 := by
  simp [runStub_eq]

/-- C8: every stub function is deterministic and noninterfering in its
arguments: two calls to the same stub with any (possibly different)
argument lists from the same memory produce equal results and equal
memories, since the body ignores all inputs. -/
theorem stub_noninterference (f : StubName) (a1 a2 : List Arg) (s : Mem) :
    runStub f a1 s = runStub f a2 s := by
  simp [runStub_eq]

/-- C9: every stub is void: the embedded functions return the unit value,
never a status code such as CL_SUCCESS and never an object handle, so a
caller reading the return as an integer or handle gets no defined value
from this interface. -/
theorem stub_returns_unit (f : StubName) (args : List Arg) (s : Mem) :
    (runStub f args s).1 = () := by
  rw [runStub_eq]

/-- C10: creation and release are both pure no-ops, so each create and
release round trip is the identity on memory and acquires or frees
nothing, for each of the five create/release pairs in the file. -/
theorem create_release_roundtrip (s : Mem) (a1 a2 : List Arg) :
    (clReleaseMemObject a2 (clCreateBuffer a1 s).2).2 = s ∧
    (clReleaseContext a2 (clCreateContext a1 s).2).2 = s ∧
    (clReleaseKernel a2 (clCreateKernel a1 s).2).2 = s ∧
    (clReleaseProgram a2 (clCreateProgramWithSource a1 s).2).2 = s ∧
    (clReleaseCommandQueue a2 (clCreateCommandQueue a1 s).2).2 = s :=
  ⟨rfl, rfl, rfl, rfl, rfl⟩
